import Mathlib

/-!
Verification of the cart-discount component (`CartDiscount` in the theme's
cart-discount module) and the blog list component (`BlogPostsList`).

JavaScript strings are modelled as lists of code points (`JStr`).  The
uppercase map is modelled on the ASCII letter range (the range exercised by
discount codes); the whitespace class is the ECMAScript `\s` class.
-/

/-- A JavaScript string, modelled as its list of code points. -/
abbrev JStr := List Nat

/-- Code points of a Lean string literal, for concrete inputs. -/
def jstr (s : String) : JStr := s.data.map Char.toNat

/-- The ECMAScript whitespace / line-terminator code points (the class `\s`,
also the set removed by `String.prototype.trim`). -/
def wsSet : List Nat :=
  [9, 10, 11, 12, 13, 32, 160, 0x1680,
   0x2000, 0x2001, 0x2002, 0x2003, 0x2004, 0x2005, 0x2006, 0x2007,
   0x2008, 0x2009, 0x200a, 0x2028, 0x2029, 0x202f, 0x205f, 0x3000, 0xfeff]

/-- Whether a code point is ECMAScript whitespace. -/
def isWS (n : Nat) : Bool := decide (n ∈ wsSet)

/-- `String.prototype.trim`: drop leading and trailing whitespace. -/
def jsTrim (s : JStr) : JStr :=
  ((s.dropWhile isWS).reverse.dropWhile isWS).reverse

/-- `.replace(/\s+/g, '')`: every whitespace run is replaced by the empty
string, i.e. all whitespace code points are removed. -/
def stripWS (s : JStr) : JStr := s.filter (fun c => !isWS c)

/-- `.replace(/^#/, '')`: remove a single leading `'#'` (code point 35). -/
def stripHash : JStr → JStr
  | [] => []
  | c :: rest => if c = 35 then rest else c :: rest

/-- `String.prototype.toUpperCase` on one code point, on the ASCII letter
range: `'a'..'z'` (97..122) shift down by 32, everything else is fixed. -/
def upCP (n : Nat) : Nat := if 97 ≤ n ∧ n ≤ 122 then n - 32 else n

/-- `.toUpperCase()` over a whole string. -/
def jsUpper (s : JStr) : JStr := s.map upCP

/-- `CartDiscount.#normalizeCode`:
`raw.trim().replace(/\s+/g, '').replace(/^#/, '').toUpperCase()`.
(The `typeof raw !== 'string'` guard is outside the string model: every
`JStr` is a string.) -/
def normalizeCode (raw : JStr) : JStr :=
  jsUpper (stripHash (stripWS (jsTrim raw)))

-- Basic facts about the pieces of the normalizer.

theorem isWS_false_of_between (n : Nat) (h1 : 33 ≤ n) (h2 : n ≤ 159) : isWS n = false := by
  simp only [isWS, decide_eq_false_iff_not, wsSet, List.mem_cons, List.not_mem_nil, or_false]
  omega

theorem upCP_idem (n : Nat) : upCP (upCP n) = upCP n := by
  unfold upCP
  by_cases h : 97 ≤ n ∧ n ≤ 122
  · rw [if_pos h, if_neg (by omega)]
  · rw [if_neg h, if_neg h]

theorem isWS_upCP (n : Nat) : isWS (upCP n) = isWS n := by
  unfold upCP
  by_cases h : 97 ≤ n ∧ n ≤ 122
  · rw [if_pos h, isWS_false_of_between _ (by omega) (by omega),
      isWS_false_of_between n (by omega) (by omega)]
  · rw [if_neg h]

theorem upCP_ne_hash (n : Nat) (h : n ≠ 35) : upCP n ≠ 35 := by
  unfold upCP
  split <;> omega

theorem jsTrim_eq_self (l : JStr) (h : ∀ c ∈ l, isWS c = false) : jsTrim l = l := by
  have h1 : l.dropWhile isWS = l := by
    rw [List.dropWhile_eq_self_iff]
    intro hl
    simp only [List.get_eq_getElem]
    simp [h _ (List.getElem_mem hl)]
  have h2 : l.reverse.dropWhile isWS = l.reverse := by
    rw [List.dropWhile_eq_self_iff]
    intro hl
    have hlen : 0 < l.length := by simpa using hl
    simp only [List.get_eq_getElem, List.getElem_reverse]
    have hmem : l[l.length - 1] ∈ l := List.getElem_mem (Nat.sub_lt hlen Nat.one_pos)
    simp [h _ hmem]
  unfold jsTrim
  rw [h1, h2, List.reverse_reverse]

theorem stripWS_eq_self (l : JStr) (h : ∀ c ∈ l, isWS c = false) : stripWS l = l := by
  unfold stripWS
  rw [List.filter_eq_self]
  intro a ha
  simp [h a ha]

theorem mem_stripWS_not_ws (l : JStr) : ∀ c ∈ stripWS (jsTrim l), isWS c = false := by
  intro c hc
  have := List.of_mem_filter hc
  simpa using this

theorem stripHash_sublist (l : JStr) : ∀ c ∈ stripHash l, c ∈ l := by
  intro c hc
  cases l with
  | nil => simp [stripHash] at hc
  | cons a t =>
    by_cases ha : a = 35
    · simp only [stripHash, if_pos ha] at hc
      exact List.mem_cons_of_mem _ hc
    · simpa [stripHash, ha] using hc

theorem stripHash_eq_self (l : JStr) (h : l.head? ≠ some 35) : stripHash l = l := by
  cases l with
  | nil => rfl
  | cons a t =>
    have : a ≠ 35 := by simpa using h
    simp [stripHash, this]

theorem normalizeCode_fixes_ws_free (y : JStr) (hws : ∀ c ∈ y, isWS c = false)
    (htake : y.take 2 ≠ [35, 35]) :
    normalizeCode (jsUpper (stripHash y)) = jsUpper (stripHash y) := by
  have hzws : ∀ c ∈ stripHash y, isWS c = false :=
    fun c hc => hws c (stripHash_sublist y c hc)
  have hzhead : (stripHash y).head? ≠ some 35 := by
    cases y with
    | nil => simp [stripHash]
    | cons a t =>
      by_cases ha : a = 35
      · subst ha
        simp only [stripHash, if_pos rfl]
        cases t with
        | nil => simp
        | cons b t' =>
          have hb : b ≠ 35 := by
            intro hb
            subst hb
            simp at htake
          simp [hb]
      · simp [stripHash, ha]
  have huws : ∀ c ∈ jsUpper (stripHash y), isWS c = false := by
    intro c hc
    obtain ⟨c', hc', rfl⟩ := List.mem_map.mp hc
    rw [isWS_upCP]
    exact hzws c' hc'
  have huhead : (jsUpper (stripHash y)).head? ≠ some 35 := by
    unfold jsUpper
    rw [List.head?_map]
    cases hz : (stripHash y).head? with
    | none => simp
    | some c =>
      have hc : c ≠ 35 := by
        intro hc
        subst hc
        exact hzhead hz
      simp [upCP_ne_hash c hc]
  unfold normalizeCode
  rw [jsTrim_eq_self _ huws, stripWS_eq_self _ huws, stripHash_eq_self _ huhead]
  unfold jsUpper
  rw [List.map_map]
  refine List.map_congr_left ?_
  intro a _
  simp only [Function.comp_apply]
  exact upCP_idem a

/-- C3 (counterexample): the normalization of `CartDiscount.#normalizeCode` is
not idempotent on every string: `"##a"` normalizes to `"#A"`, which normalizes
again to `"A"`, because `.replace(/^#/, '')` strips only one leading `'#'`. -/
theorem normalizeCode_not_idempotent :
    normalizeCode (normalizeCode (jstr "##a")) ≠ normalizeCode (jstr "##a") := by
  decide

/-- C3 (amended): `CartDiscount.#normalizeCode` is idempotent on every string
whose whitespace-stripped form does not begin with two `'#'` characters
(normalization strips exactly one leading `'#'`, so only a string that still
starts with `'#'` after one pass renormalizes differently); in particular
`normalizeCode " #save10 " = "SAVE10"` and is a fixed point. -/
theorem normalizeCode_idem (x : JStr)
    (h : (stripWS (jsTrim x)).take 2 ≠ [35, 35]) :
    normalizeCode (normalizeCode x) = normalizeCode x :=
  normalizeCode_fixes_ws_free (stripWS (jsTrim x)) (mem_stripWS_not_ws x) h

/-- C3 (witness): the amended idempotence at the spec's own example
`" #save10 "`, together with its stated normal form `"SAVE10"`. -/
theorem normalizeCode_idem_witness :
    (stripWS (jsTrim (jstr " #save10 "))).take 2 ≠ [35, 35] ∧
    normalizeCode (normalizeCode (jstr " #save10 ")) = normalizeCode (jstr " #save10 ") ∧
    normalizeCode (jstr " #save10 ") = jstr "SAVE10" :=
  ⟨by decide, normalizeCode_idem (jstr " #save10 ") (by decide), by decide⟩

/-!
The `CartDiscount` component.  DOM-visible state is a `CD` record; the
response JSON is `RespData`; one user-triggered operation is split into its
synchronous prefix (up to `await fetch`) and its settlement, so that an
operation that was superseded can settle against the later state.
-/

/-- One element of `data.discount_codes`: the platform's per-code result.
`applicable` is `some b` when the field is the boolean `b` (the code compares
with `=== false` / `=== true`), `none` when absent or non-boolean. -/
structure RespEntry where
  code : JStr
  applicable : Option Bool
  deriving DecidableEq

/-- The parsed JSON body when it is an object: the two fields the component
reads.  `discount_codes` is `some l` exactly when `Array.isArray` holds.
`sections` keeps the string-valued entries of `data.sections`; a key whose
value is not a string fails the `typeof newHtml === 'string'` test exactly
like an absent key and is modelled as absent. -/
structure RespData where
  discount_codes : Option (List RespEntry)
  sections : List (JStr × JStr)
  deriving DecidableEq

/-- The initial `let data = {}`. -/
def RespData.empty : RespData := ⟨none, []⟩

/-- The result of `await res.json()` inside its `try`:
`malformed` = the promise rejected, so `data` keeps its initial `{}`;
`nonObject` = it parsed to `null` or a non-object (caught by the
`!data || typeof data !== 'object'` guard); `obj d` = an object. -/
inductive ParsedBody
  | malformed
  | nonObject
  | obj (d : RespData)
  deriving DecidableEq

/-- The value of the `data` variable after the inner `try`/`catch`.  For
`nonObject` the guard returns before `data` is ever read, so its value is
irrelevant; `empty` keeps the function total. -/
def ParsedBody.data : ParsedBody → RespData
  | .malformed => RespData.empty
  | .nonObject => RespData.empty
  | .obj d => d

/-- How the operation's `await fetch` settled. -/
inductive FetchOutcome
  | abortError
  | netError
  | settled (ok : Bool) (body : ParsedBody)
  deriving DecidableEq

/-- `data.sections?.[sectionId]` restricted to string values. -/
def sectionsLookup (m : List (JStr × JStr)) (k : JStr) : Option JStr :=
  (m.find? (fun p => p.1 == k)).map (fun p => p.2)

/-- DOM-visible state of one `<cart-discount-component>` plus its private
fields. -/
structure CD where
  /-- `this.dataset.sectionId` (`none` = attribute absent). -/
  sectionId : Option JStr
  /-- `data-discount-code` of the rendered `.cart-discount__pill` `li`
  elements, in document order. -/
  pills : List JStr
  /-- the value of `input[name="discount"]`. -/
  inputValue : JStr
  /-- `form.querySelector('[type="submit"]')` finds a button. -/
  hasSubmitBtn : Bool
  /-- the private `#submitBtn` field is non-null. -/
  submitBtnCaptured : Bool
  /-- the submit button's `disabled` property. -/
  btnDisabled : Bool
  /-- text of the `#statusLive` region (`none` = not yet created). -/
  statusLive : Option JStr
  /-- `cartDiscountError` is visible (`hidden` class absent). -/
  errGeneric : Bool
  /-- `cartDiscountErrorDiscountCode` is visible. -/
  errDiscountCode : Bool
  /-- `cartDiscountErrorShipping` is visible. -/
  errShipping : Bool
  /-- id of the `#activeFetch` AbortController (`none` = null). -/
  activeFetch : Option Nat
  deriving DecidableEq

/-- `CartDiscount.#existingDiscounts`: normalize the `data-discount-code` of
every rendered pill. -/
def existingDiscounts (s : CD) : List JStr := s.pills.map normalizeCode

/-- `CartDiscount.#hideAllErrors`. -/
def hideAllErrors (s : CD) : CD :=
  { s with errGeneric := false, errDiscountCode := false, errShipping := false }

/-- `CartDiscount.#lockUI`: capture the submit button, disable it if found,
create the live region if needed and set its text. -/
def lockUI (s : CD) (label : JStr) : CD :=
  let s1 := { s with submitBtnCaptured := s.hasSubmitBtn }
  let s2 := if s1.submitBtnCaptured then { s1 with btnDisabled := true } else s1
  { s2 with statusLive := some label }

/-- `CartDiscount.#unlockUI`: re-enable the captured submit button and set the
live region's text (if that region exists). -/
def unlockUI (s : CD) (label : JStr) : CD :=
  let s1 := if s.submitBtnCaptured then { s with btnDisabled := false } else s
  match s1.statusLive with
  | some _ => { s1 with statusLive := some label }
  | none => s1

/-- Which error `#showError` was asked to show. -/
inductive ErrKind
  | discountCode
  | shipping
  deriving DecidableEq

/-- `CartDiscount.#showError`: unhide the wrapper and the requested message,
and blank the live region if it exists. -/
def showError (s : CD) (t : ErrKind) : CD :=
  let s1 := { s with errGeneric := true }
  let s2 := match t with
    | .discountCode => { s1 with errDiscountCode := true }
    | .shipping => { s1 with errShipping := true }
  match s2.statusLive with
  | some _ => { s2 with statusLive := some [] }
  | none => s2

/-- `CartDiscount.#newAbort`: abort the previous controller (returned as the
list of aborted ids) and install a fresh one. -/
def newAbort (s : CD) (fresh : Nat) : CD × List Nat :=
  ({ s with activeFetch := some fresh }, s.activeFetch.toList)

/-- The request body sent to `Theme.routes.cart_update_url`. -/
structure Req where
  discount : JStr
  sections : List JStr
  deriving DecidableEq

/-- `Array.prototype.join(',')`. -/
def joinComma (l : List JStr) : JStr := List.intercalate [44] l

/-- The literal label `'Applying…'`. -/
def applyingLabel : JStr := jstr "Applying…"

/-- The locals of `applyDiscount` alive across its `await fetch`. -/
structure InFlight where
  state : CD
  code : JStr
  existing : List JStr
  sid : JStr
  req : Req
  abortedPrev : List Nat
  deriving DecidableEq

/-- `CartDiscount.applyDiscount`, synchronous prefix up to the `fetch` call:
the section-id guard, normalization, the empty-code and already-applied
early returns, `#hideAllErrors`, `#lockUI`, `#newAbort` and the request
body.  `.inl` = returned without issuing a fetch. -/
def applyDiscountToFetch (s : CD) (fresh : Nat) : Sum CD InFlight :=
  match s.sectionId with
  | none => .inl s
  | some sid =>
    let code := normalizeCode s.inputValue
    if code = [] then .inl s
    else
      let existing := existingDiscounts s
      if code ∈ existing then .inl { s with inputValue := [] }
      else
        let s1 := lockUI (hideAllErrors s) applyingLabel
        let p := newAbort s1 fresh
        .inr ⟨p.1, code, existing, sid, ⟨joinComma (existing ++ [code]), [sid]⟩, p.2⟩

/-- The `finally` block of `applyDiscount`: null the controller, then
`#unlockUI('')` (`cartPerformance.measureFromEvent` has no component state). -/
def applyFinally (s : CD) : CD := unlockUI { s with activeFetch := none } []

/-- `CartDiscount.applyDiscount` from the resumption of `await fetch` to the
end (try body, catch, finally).  `extract` gives the `data-discount-code`
values of the `.cart-discount__pill` `li` elements that `DOMParser` finds in
the returned section html; `code`, `existing`, `sid` are the captured
locals; `s` is the component state at resumption.  Returns the new state,
the `DiscountUpdateEvent` payloads dispatched and the `morphSection` calls. -/
def applyDiscountSettle (extract : JStr → List JStr) (code : JStr)
    (existing : List JStr) (sid : JStr) (outcome : FetchOutcome) (s : CD) :
    CD × List RespData × List (JStr × JStr) :=
  let r : CD × List RespData × List (JStr × JStr) :=
    match outcome with
    | .abortError => (s, [], [])
    | .netError => (showError s .discountCode, [], [])
    | .settled ok pb =>
      if ok = false ∨ pb = ParsedBody.nonObject then
        (showError s .discountCode, [], [])
      else
        let data := pb.data
        let notApplicable :=
          match data.discount_codes with
          | some l => l.any (fun d => normalizeCode d.code == code && d.applicable == some false)
          | none => false
        if notApplicable then
          (showError { s with inputValue := [] } .discountCode, [], [])
        else
          match sectionsLookup data.sections sid with
          | some newHtml =>
            let nextCodes := ((extract newHtml).map normalizeCode).filter (fun c => !c.isEmpty)
            let applicable :=
              match data.discount_codes with
              | some l => l.any (fun d => normalizeCode d.code == code && d.applicable == some true)
              | none => false
            let noNewPill := nextCodes.length == existing.length &&
              nextCodes.all (fun c => existing.contains c)
            if applicable && noNewPill then
              ({ showError s .shipping with inputValue := [] }, [], [])
            else
              ({ s with inputValue := [] }, [data], [(sid, newHtml)])
          | none => ({ s with inputValue := [] }, [], [])
  (applyFinally r.1, r.2.1, r.2.2)

/-- Everything observable about one full operation: final state, fetches
issued, `DiscountUpdateEvent` dispatches, `morphSection` calls, and the
controllers aborted by `#newAbort`. -/
structure RunResult where
  state : CD
  requests : List Req
  broadcasts : List RespData
  morphs : List (JStr × JStr)
  abortedIds : List Nat
  deriving DecidableEq

/-- One full `applyDiscount` invocation whose fetch settles with no
interleaved operation: the synchronous prefix followed by its settlement. -/
def applyDiscountRun (extract : JStr → List JStr) (s : CD) (fresh : Nat)
    (outcome : FetchOutcome) : RunResult :=
  match applyDiscountToFetch s fresh with
  | .inl s' => ⟨s', [], [], [], []⟩
  | .inr fl =>
    let r := applyDiscountSettle extract fl.code fl.existing fl.sid outcome fl.state
    ⟨r.1, [fl.req], r.2.1, r.2.2, fl.abortedPrev⟩

/-- One full `CartDiscount.removeDiscount` invocation, from the point where
the activated pill's `data-discount-code` has been read (`pillRaw`); the
event-type guards (Enter key, `closest` hit, `li` check) are presupposed by
"activation".  Remove has no UI lock and swallows every failure; its
`finally` only nulls the controller. -/
def removeDiscountRun (s : CD) (pillRaw : JStr) (fresh : Nat)
    (outcome : FetchOutcome) : RunResult :=
  match s.sectionId with
  | none => ⟨s, [], [], [], []⟩
  | some sid =>
    let code := normalizeCode pillRaw
    if code = [] then ⟨s, [], [], [], []⟩
    else
      let existing := existingDiscounts s
      if code ∈ existing then
        let rest := existing.erase code
        let p := newAbort s fresh
        let req : Req := ⟨joinComma rest, [sid]⟩
        let fin := fun (t : CD) (bs : List RespData) (ms : List (JStr × JStr)) =>
          (⟨{ t with activeFetch := none }, [req], bs, ms, p.2⟩ : RunResult)
        match outcome with
        | .abortError => fin p.1 [] []
        | .netError => fin p.1 [] []
        | .settled ok pb =>
          if ok = false ∨ pb = ParsedBody.nonObject then fin p.1 [] []
          else
            match sectionsLookup pb.data.sections sid with
            | some html => fin p.1 [pb.data] [(sid, html)]
            | none => fin p.1 [pb.data] []
      else ⟨s, [], [], [], []⟩

/-!  Helper lemmas shared by the claim theorems. -/

theorem entry_any_false_iff (l : List RespEntry) (code : JStr) :
    (l.any fun d => normalizeCode d.code == code && d.applicable == some false) = true ↔
      ∃ e ∈ l, normalizeCode e.code = code ∧ e.applicable = some false := by
  simp [List.any_eq_true, Bool.and_eq_true, beq_iff_eq]

theorem entry_any_true_iff (l : List RespEntry) (code : JStr) :
    (l.any fun d => normalizeCode d.code == code && d.applicable == some true) = true ↔
      ∃ e ∈ l, normalizeCode e.code = code ∧ e.applicable = some true := by
  simp [List.any_eq_true, Bool.and_eq_true, beq_iff_eq]

theorem applyDiscountToFetch_fetches (s : CD) (fresh : Nat) (sid : JStr)
    (hsid : s.sectionId = some sid)
    (hne : normalizeCode s.inputValue ≠ [])
    (hnm : normalizeCode s.inputValue ∉ existingDiscounts s) :
    applyDiscountToFetch s fresh =
      .inr ⟨(newAbort (lockUI (hideAllErrors s) applyingLabel) fresh).1,
            normalizeCode s.inputValue, existingDiscounts s, sid,
            ⟨joinComma (existingDiscounts s ++ [normalizeCode s.inputValue]), [sid]⟩,
            (newAbort (lockUI (hideAllErrors s) applyingLabel) fresh).2⟩ := by
  simp only [applyDiscountToFetch, hsid, if_neg hne, if_neg hnm]

/-- Fields of the state as it stands at the `await fetch` point of
`applyDiscount`. -/
theorem lockedState_fields (s : CD) (fresh : Nat) :
    (newAbort (lockUI (hideAllErrors s) applyingLabel) fresh).1 =
      { s with errGeneric := false, errDiscountCode := false, errShipping := false,
               submitBtnCaptured := s.hasSubmitBtn,
               btnDisabled := if s.hasSubmitBtn then true else s.btnDisabled,
               statusLive := some applyingLabel,
               activeFetch := some fresh } := by
  by_cases hb : s.hasSubmitBtn <;>
    simp [newAbort, lockUI, hideAllErrors, hb]

theorem entry_any_false_neg (l : List RespEntry) (code : JStr)
    (hnf : ∀ e ∈ l, normalizeCode e.code = code → e.applicable ≠ some false) :
    (l.any fun d => normalizeCode d.code == code && d.applicable == some false) = false := by
  rw [List.any_eq_false]
  intro e he
  simp only [Bool.and_eq_true, beq_iff_eq, not_and]
  exact fun hc hf => hnf e he hc hf

theorem applyDiscountSettle_error_outcomes (extract : JStr → List JStr)
    (code : JStr) (existing : List JStr) (sid : JStr) (outcome : FetchOutcome) (t : CD)
    (hout : outcome = .netError ∨ (∃ pb, outcome = .settled false pb) ∨
            outcome = .settled true .nonObject) :
    applyDiscountSettle extract code existing sid outcome t =
      (applyFinally (showError t .discountCode), [], []) := by
  rcases hout with h | ⟨pb, h⟩ | h <;> subst h <;> rfl

theorem applyDiscountSettle_notApplicable (extract : JStr → List JStr)
    (code : JStr) (existing : List JStr) (sid : JStr) (d : RespData) (t : CD)
    (l : List RespEntry) (hl : d.discount_codes = some l)
    (hentry : ∃ e ∈ l, normalizeCode e.code = code ∧ e.applicable = some false) :
    applyDiscountSettle extract code existing sid (.settled true (.obj d)) t =
      (applyFinally (showError { t with inputValue := [] } .discountCode), [], []) := by
  have hguard : ¬(true = false ∨ ParsedBody.obj d = ParsedBody.nonObject) := by simp
  have hna : (l.any fun e => normalizeCode e.code == code && e.applicable == some false) = true :=
    (entry_any_false_iff l code).mpr hentry
  simp only [applyDiscountSettle, if_neg hguard, ParsedBody.data, hl, hna, if_true]

theorem noNewPill_true_of (nextCodes existing : List JStr)
    (hlen : nextCodes.length = existing.length)
    (hsub : ∀ c ∈ nextCodes, c ∈ existing) :
    (nextCodes.length == existing.length && nextCodes.all (fun c => existing.contains c)) = true := by
  rw [Bool.and_eq_true]
  refine ⟨by simpa using hlen, ?_⟩
  rw [List.all_eq_true]
  intro c hc
  simpa [List.contains, List.elem_iff] using hsub c hc

theorem noNewPill_false_of (nextCodes existing : List JStr)
    (hnn : ¬(nextCodes.length = existing.length ∧ ∀ c ∈ nextCodes, c ∈ existing)) :
    (nextCodes.length == existing.length && nextCodes.all (fun c => existing.contains c)) = false := by
  by_contra hcon
  rw [Bool.not_eq_false, Bool.and_eq_true] at hcon
  obtain ⟨h1, h2⟩ := hcon
  apply hnn
  refine ⟨by simpa using h1, ?_⟩
  intro c hc
  have := (List.all_eq_true.mp h2) c hc
  simpa [List.contains, List.elem_iff] using this

theorem applyDiscountSettle_shipping (extract : JStr → List JStr)
    (code : JStr) (existing : List JStr) (sid : JStr) (d : RespData) (t : CD)
    (l : List RespEntry) (html : JStr)
    (hl : d.discount_codes = some l)
    (hnf : ∀ e ∈ l, normalizeCode e.code = code → e.applicable ≠ some false)
    (hyes : ∃ e ∈ l, normalizeCode e.code = code ∧ e.applicable = some true)
    (hlook : sectionsLookup d.sections sid = some html)
    (hlen : (((extract html).map normalizeCode).filter (fun c => !c.isEmpty)).length
              = existing.length)
    (hsub : ∀ c ∈ ((extract html).map normalizeCode).filter (fun c => !c.isEmpty),
              c ∈ existing) :
    applyDiscountSettle extract code existing sid (.settled true (.obj d)) t =
      (applyFinally { showError t .shipping with inputValue := [] }, [], []) := by
  have hguard : ¬(true = false ∨ ParsedBody.obj d = ParsedBody.nonObject) := by simp
  have hna := entry_any_false_neg l code hnf
  have hap : (l.any fun e => normalizeCode e.code == code && e.applicable == some true) = true :=
    (entry_any_true_iff l code).mpr hyes
  have hnn := noNewPill_true_of (((extract html).map normalizeCode).filter (fun c => !c.isEmpty))
    existing hlen hsub
  simp only [applyDiscountSettle, if_neg hguard, ParsedBody.data, hl, hna, hlook, hap, hnn,
    Bool.false_eq_true, if_false, Bool.and_self, if_true]

theorem applyDiscountSettle_broadcast (extract : JStr → List JStr)
    (code : JStr) (existing : List JStr) (sid : JStr) (d : RespData) (t : CD)
    (html : JStr)
    (hnf : ∀ l, d.discount_codes = some l →
      ∀ e ∈ l, normalizeCode e.code = code → e.applicable ≠ some false)
    (hlook : sectionsLookup d.sections sid = some html)
    (hnn : ¬((((extract html).map normalizeCode).filter (fun c => !c.isEmpty)).length
              = existing.length ∧
            ∀ c ∈ ((extract html).map normalizeCode).filter (fun c => !c.isEmpty),
              c ∈ existing)) :
    applyDiscountSettle extract code existing sid (.settled true (.obj d)) t =
      (applyFinally { t with inputValue := [] }, [d], [(sid, html)]) := by
  have hguard : ¬(true = false ∨ ParsedBody.obj d = ParsedBody.nonObject) := by simp
  have hna : (match d.discount_codes with
      | some l => l.any fun e => normalizeCode e.code == code && e.applicable == some false
      | none => false) = false := by
    cases hdl : d.discount_codes with
    | none => rfl
    | some l => exact entry_any_false_neg l code (hnf l hdl)
  have hnnb := noNewPill_false_of
    (((extract html).map normalizeCode).filter (fun c => !c.isEmpty)) existing hnn
  simp only [applyDiscountSettle, if_neg hguard, ParsedBody.data, hna, hlook, hnnb,
    Bool.false_eq_true, if_false, Bool.and_false]

theorem applyDiscountSettle_silent (extract : JStr → List JStr)
    (code : JStr) (existing : List JStr) (sid : JStr) (pb : ParsedBody) (t : CD)
    (hpb : pb ≠ ParsedBody.nonObject)
    (hnf : ∀ l, pb.data.discount_codes = some l →
      ∀ e ∈ l, normalizeCode e.code = code → e.applicable ≠ some false)
    (hlook : sectionsLookup pb.data.sections sid = none) :
    applyDiscountSettle extract code existing sid (.settled true pb) t =
      (applyFinally { t with inputValue := [] }, [], []) := by
  have hguard : ¬(true = false ∨ pb = ParsedBody.nonObject) := by simp [hpb]
  have hna : (match pb.data.discount_codes with
      | some l => l.any fun e => normalizeCode e.code == code && e.applicable == some false
      | none => false) = false := by
    cases hdl : pb.data.discount_codes with
    | none => rfl
    | some l => exact entry_any_false_neg l code (hnf l hdl)
  simp only [applyDiscountSettle, if_neg hguard, hna, hlook, Bool.false_eq_true, if_false]

/-- C2 (counterexample): an `applyDiscount` whose fetch settles with an OK
status but a body that is not parseable as JSON does not surface any error:
`data` keeps its `{}` default, passes the `typeof data === 'object'` guard,
and the call completes as a silent success with the input cleared — the
claim requires the generic discount-code error and no success treatment. -/
theorem applyDiscount_malformed_ok_is_silent :
    (applyDiscountRun (fun _ => [])
      ⟨some [99], [], [97], true, false, false, none, false, false, false, none⟩
      1 (.settled true .malformed)).state.errDiscountCode = false ∧
    (applyDiscountRun (fun _ => [])
      ⟨some [99], [], [97], true, false, false, none, false, false, false, none⟩
      1 (.settled true .malformed)).state.errGeneric = false ∧
    (applyDiscountRun (fun _ => [])
      ⟨some [99], [], [97], true, false, false, none, false, false, false, none⟩
      1 (.settled true .malformed)).state.errShipping = false ∧
    (applyDiscountRun (fun _ => [])
      ⟨some [99], [], [97], true, false, false, none, false, false, false, none⟩
      1 (.settled true .malformed)).state.inputValue = [] := by
  decide

/-- C2 (amended): for every `applyDiscount` call that issues a fetch which
settles with a network failure, a non-OK HTTP status, or an OK status whose
body parses to a JSON value that is not an object, the generic discount-code
error is shown and prior UI state is retained: no section markup is
replaced, no broadcast is dispatched and the input field keeps its value.
(An OK status with an *unparseable* body is excluded: there the code falls
through to a silent success, see the counterexample.) -/
theorem applyDiscount_transport_error (extract : JStr → List JStr) (s : CD)
    (fresh : Nat) (outcome : FetchOutcome) (sid : JStr)
    (hsid : s.sectionId = some sid)
    (hne : normalizeCode s.inputValue ≠ [])
    (hnm : normalizeCode s.inputValue ∉ existingDiscounts s)
    (hout : outcome = .netError ∨ (∃ pb, outcome = .settled false pb) ∨
            outcome = .settled true .nonObject) :
    (applyDiscountRun extract s fresh outcome).state.errGeneric = true ∧
    (applyDiscountRun extract s fresh outcome).state.errDiscountCode = true ∧
    (applyDiscountRun extract s fresh outcome).state.errShipping = false ∧
    (applyDiscountRun extract s fresh outcome).state.inputValue = s.inputValue ∧
    (applyDiscountRun extract s fresh outcome).broadcasts = [] ∧
    (applyDiscountRun extract s fresh outcome).morphs = [] := by
  have hf := applyDiscountToFetch_fetches s fresh sid hsid hne hnm
  simp only [applyDiscountRun, hf]
  rw [applyDiscountSettle_error_outcomes _ _ _ _ _ _ hout, lockedState_fields]
  by_cases hb : s.hasSubmitBtn <;>
    simp [applyFinally, unlockUI, showError, hb]

/-- C2 (witness): the amended theorem at a concrete state and a network
failure. -/
theorem applyDiscount_transport_error_witness :
    (applyDiscountRun (fun _ => [])
      ⟨some [99], [], [97], true, false, false, none, false, false, false, none⟩
      1 .netError).state.errGeneric = true ∧
    (applyDiscountRun (fun _ => [])
      ⟨some [99], [], [97], true, false, false, none, false, false, false, none⟩
      1 .netError).state.errDiscountCode = true ∧
    (applyDiscountRun (fun _ => [])
      ⟨some [99], [], [97], true, false, false, none, false, false, false, none⟩
      1 .netError).state.errShipping = false ∧
    (applyDiscountRun (fun _ => [])
      ⟨some [99], [], [97], true, false, false, none, false, false, false, none⟩
      1 .netError).state.inputValue = [97] ∧
    (applyDiscountRun (fun _ => [])
      ⟨some [99], [], [97], true, false, false, none, false, false, false, none⟩
      1 .netError).broadcasts = [] ∧
    (applyDiscountRun (fun _ => [])
      ⟨some [99], [], [97], true, false, false, none, false, false, false, none⟩
      1 .netError).morphs = [] :=
  applyDiscount_transport_error (fun _ => [])
    ⟨some [99], [], [97], true, false, false, none, false, false, false, none⟩
    1 .netError [99] rfl (by decide) (by decide) (Or.inl rfl)

/-- C6: for every `applyDiscount` call whose settled OK response contains an
entry marking the submitted code `applicable: false`, the discount-code
error is shown, the input field is cleared, and no section replacement and
no broadcast occur. -/
theorem applyDiscount_not_applicable (extract : JStr → List JStr) (s : CD)
    (fresh : Nat) (sid : JStr) (d : RespData) (l : List RespEntry)
    (hsid : s.sectionId = some sid)
    (hne : normalizeCode s.inputValue ≠ [])
    (hnm : normalizeCode s.inputValue ∉ existingDiscounts s)
    (hl : d.discount_codes = some l)
    (hentry : ∃ e ∈ l, normalizeCode e.code = normalizeCode s.inputValue ∧
      e.applicable = some false) :
    (applyDiscountRun extract s fresh (.settled true (.obj d))).state.errGeneric = true ∧
    (applyDiscountRun extract s fresh (.settled true (.obj d))).state.errDiscountCode = true ∧
    (applyDiscountRun extract s fresh (.settled true (.obj d))).state.errShipping = false ∧
    (applyDiscountRun extract s fresh (.settled true (.obj d))).state.inputValue = [] ∧
    (applyDiscountRun extract s fresh (.settled true (.obj d))).broadcasts = [] ∧
    (applyDiscountRun extract s fresh (.settled true (.obj d))).morphs = [] := by
  have hf := applyDiscountToFetch_fetches s fresh sid hsid hne hnm
  simp only [applyDiscountRun, hf]
  rw [applyDiscountSettle_notApplicable extract _ _ _ d _ l hl hentry, lockedState_fields]
  by_cases hb : s.hasSubmitBtn <;>
    simp [applyFinally, unlockUI, showError, hb]

/-- C6 (witness): one pill `OLD`, submitting `save10`, response flags
`SAVE10` as not applicable. -/
theorem applyDiscount_not_applicable_witness :
    (applyDiscountRun (fun _ => [])
      ⟨some [99], [[79, 76, 68]], jstr "save10", true, false, false, none,
        false, false, false, none⟩
      1 (.settled true (.obj ⟨some [⟨jstr "SAVE10", some false⟩], [([99], [60])]⟩))).state.errGeneric = true ∧
    (applyDiscountRun (fun _ => [])
      ⟨some [99], [[79, 76, 68]], jstr "save10", true, false, false, none,
        false, false, false, none⟩
      1 (.settled true (.obj ⟨some [⟨jstr "SAVE10", some false⟩], [([99], [60])]⟩))).state.errDiscountCode = true ∧
    (applyDiscountRun (fun _ => [])
      ⟨some [99], [[79, 76, 68]], jstr "save10", true, false, false, none,
        false, false, false, none⟩
      1 (.settled true (.obj ⟨some [⟨jstr "SAVE10", some false⟩], [([99], [60])]⟩))).state.errShipping = false ∧
    (applyDiscountRun (fun _ => [])
      ⟨some [99], [[79, 76, 68]], jstr "save10", true, false, false, none,
        false, false, false, none⟩
      1 (.settled true (.obj ⟨some [⟨jstr "SAVE10", some false⟩], [([99], [60])]⟩))).state.inputValue = [] ∧
    (applyDiscountRun (fun _ => [])
      ⟨some [99], [[79, 76, 68]], jstr "save10", true, false, false, none,
        false, false, false, none⟩
      1 (.settled true (.obj ⟨some [⟨jstr "SAVE10", some false⟩], [([99], [60])]⟩))).broadcasts = [] ∧
    (applyDiscountRun (fun _ => [])
      ⟨some [99], [[79, 76, 68]], jstr "save10", true, false, false, none,
        false, false, false, none⟩
      1 (.settled true (.obj ⟨some [⟨jstr "SAVE10", some false⟩], [([99], [60])]⟩))).morphs = [] :=
  applyDiscount_not_applicable (fun _ => [])
    ⟨some [99], [[79, 76, 68]], jstr "save10", true, false, false, none,
      false, false, false, none⟩
    1 [99] ⟨some [⟨jstr "SAVE10", some false⟩], [([99], [60])]⟩
    [⟨jstr "SAVE10", some false⟩] rfl (by decide) (by decide) rfl
    ⟨⟨jstr "SAVE10", some false⟩, by decide, by decide, rfl⟩

/-- C7: for every `applyDiscount` call on a component with a section id whose
normalized (non-empty) input code is already among the normalized codes of
the rendered pills, no network request is issued, the input field is
cleared, and nothing else changes — in particular no error is shown. -/
theorem applyDiscount_already_applied (extract : JStr → List JStr) (s : CD)
    (fresh : Nat) (outcome : FetchOutcome) (sid : JStr)
    (hsid : s.sectionId = some sid)
    (hne : normalizeCode s.inputValue ≠ [])
    (hmem : normalizeCode s.inputValue ∈ existingDiscounts s) :
    applyDiscountRun extract s fresh outcome =
      ⟨{ s with inputValue := [] }, [], [], [], []⟩ := by
  simp only [applyDiscountRun, applyDiscountToFetch, hsid, if_neg hne, if_pos hmem]

/-- C7 (witness): submitting `" #old "` with pill `OLD` applied. -/
theorem applyDiscount_already_applied_witness :
    applyDiscountRun (fun _ => [])
      ⟨some [99], [[111, 108, 100]], jstr " #old ", true, false, false, none,
        false, false, false, some 7⟩ 1 .netError =
      ⟨⟨some [99], [[111, 108, 100]], [], true, false, false, none,
        false, false, false, some 7⟩, [], [], [], []⟩ :=
  applyDiscount_already_applied (fun _ => [])
    ⟨some [99], [[111, 108, 100]], jstr " #old ", true, false, false, none,
      false, false, false, some 7⟩ 1 .netError [99] rfl (by decide) (by decide)

/-- C9 (implicit): for every `applyDiscount` call whose settled OK response
does not mark the submitted code `applicable: false` and whose sections map
has no string entry for the component's section id, the call is a silent
success: input cleared, all error panels hidden, no broadcast, no morph. -/
theorem applyDiscount_no_section_silent (extract : JStr → List JStr) (s : CD)
    (fresh : Nat) (sid : JStr) (pb : ParsedBody)
    (hsid : s.sectionId = some sid)
    (hne : normalizeCode s.inputValue ≠ [])
    (hnm : normalizeCode s.inputValue ∉ existingDiscounts s)
    (hpb : pb ≠ ParsedBody.nonObject)
    (hnf : ∀ l, pb.data.discount_codes = some l →
      ∀ e ∈ l, normalizeCode e.code = normalizeCode s.inputValue →
        e.applicable ≠ some false)
    (hlook : sectionsLookup pb.data.sections sid = none) :
    (applyDiscountRun extract s fresh (.settled true pb)).state.errGeneric = false ∧
    (applyDiscountRun extract s fresh (.settled true pb)).state.errDiscountCode = false ∧
    (applyDiscountRun extract s fresh (.settled true pb)).state.errShipping = false ∧
    (applyDiscountRun extract s fresh (.settled true pb)).state.inputValue = [] ∧
    (applyDiscountRun extract s fresh (.settled true pb)).broadcasts = [] ∧
    (applyDiscountRun extract s fresh (.settled true pb)).morphs = [] := by
  have hf := applyDiscountToFetch_fetches s fresh sid hsid hne hnm
  simp only [applyDiscountRun, hf]
  rw [applyDiscountSettle_silent extract _ _ _ pb _ hpb hnf hlook, lockedState_fields]
  by_cases hb : s.hasSubmitBtn <;>
    simp [applyFinally, unlockUI, hb]

/-- C9 (witness): OK response with an unparseable body (`data = {}` has no
sections entry) completes silently. -/
theorem applyDiscount_no_section_silent_witness :
    (applyDiscountRun (fun _ => [])
      ⟨some [99], [], [97], true, false, false, none, false, false, false, none⟩
      1 (.settled true .malformed)).state.errGeneric = false ∧
    (applyDiscountRun (fun _ => [])
      ⟨some [99], [], [97], true, false, false, none, false, false, false, none⟩
      1 (.settled true .malformed)).state.errDiscountCode = false ∧
    (applyDiscountRun (fun _ => [])
      ⟨some [99], [], [97], true, false, false, none, false, false, false, none⟩
      1 (.settled true .malformed)).state.errShipping = false ∧
    (applyDiscountRun (fun _ => [])
      ⟨some [99], [], [97], true, false, false, none, false, false, false, none⟩
      1 (.settled true .malformed)).state.inputValue = [] ∧
    (applyDiscountRun (fun _ => [])
      ⟨some [99], [], [97], true, false, false, none, false, false, false, none⟩
      1 (.settled true .malformed)).broadcasts = [] ∧
    (applyDiscountRun (fun _ => [])
      ⟨some [99], [], [97], true, false, false, none, false, false, false, none⟩
      1 (.settled true .malformed)).morphs = [] :=
  applyDiscount_no_section_silent (fun _ => [])
    ⟨some [99], [], [97], true, false, false, none, false, false, false, none⟩
    1 [99] .malformed rfl (by decide) (by decide) (by decide)
    (fun l hl => by simp [ParsedBody.data, RespData.empty] at hl) rfl

theorem mem_iff_of_eq {a b : List JStr} (h : a = b) : ∀ c, c ∈ a ↔ c ∈ b :=
  fun c => by rw [h]

theorem not_mem_iff_of_elt {a b : List JStr} (c : JStr)
    (h : (c ∈ a ∧ c ∉ b) ∨ (c ∉ a ∧ c ∈ b)) : ¬∀ x, x ∈ a ↔ x ∈ b := by
  intro hall
  rcases h with ⟨h1, h2⟩ | ⟨h1, h2⟩
  · exact h2 ((hall c).mp h1)
  · exact h1 ((hall c).mpr h2)

theorem length_eq_of_nodup_set_eq (a b : List JStr) (ha : a.Nodup) (hb : b.Nodup)
    (hset : ∀ c, c ∈ a ↔ c ∈ b) : a.length = b.length := by
  have hfin : a.toFinset = b.toFinset := by
    ext c
    simp only [List.mem_toFinset]
    exact hset c
  calc a.length = a.toFinset.card := (List.toFinset_card_of_nodup ha).symm
    _ = b.toFinset.card := by rw [hfin]
    _ = b.length := List.toFinset_card_of_nodup hb

theorem set_ne_of_nodup_not_iff (a b : List JStr) (ha : a.Nodup) (hb : b.Nodup)
    (hne : ¬∀ c, c ∈ a ↔ c ∈ b) :
    ¬(a.length = b.length ∧ ∀ c ∈ a, c ∈ b) := by
  rintro ⟨hlen, hsub⟩
  apply hne
  have hsubF : a.toFinset ⊆ b.toFinset := by
    intro c hc
    exact List.mem_toFinset.mpr (hsub c (List.mem_toFinset.mp hc))
  have hcard : b.toFinset.card ≤ a.toFinset.card := by
    rw [List.toFinset_card_of_nodup ha, List.toFinset_card_of_nodup hb, hlen]
  have heq := Finset.eq_of_subset_of_card_le hsubF hcard
  intro c
  refine ⟨hsub c, fun hcb => ?_⟩
  exact List.mem_toFinset.mp (heq ▸ List.mem_toFinset.mpr hcb)

/-- C4: for every `applyDiscount` call whose settled OK response marks the
submitted code applicable (and not non-applicable), and where the pill-code
set extracted from the returned section markup equals — as a set of
duplicate-free codes, per the data model's uniqueness invariant — the
pill-code set read from the DOM before the request, the shipping error is
shown, the input field is cleared, and no broadcast and no morph occur. -/
theorem applyDiscount_shipping_heuristic (extract : JStr → List JStr) (s : CD)
    (fresh : Nat) (sid : JStr) (d : RespData) (l : List RespEntry) (html : JStr)
    (hsid : s.sectionId = some sid)
    (hne : normalizeCode s.inputValue ≠ [])
    (hnm : normalizeCode s.inputValue ∉ existingDiscounts s)
    (hl : d.discount_codes = some l)
    (hnf : ∀ e ∈ l, normalizeCode e.code = normalizeCode s.inputValue →
      e.applicable ≠ some false)
    (hyes : ∃ e ∈ l, normalizeCode e.code = normalizeCode s.inputValue ∧
      e.applicable = some true)
    (hlook : sectionsLookup d.sections sid = some html)
    (hnodupNext : (((extract html).map normalizeCode).filter (fun c => !c.isEmpty)).Nodup)
    (hnodupPrev : (existingDiscounts s).Nodup)
    (hset : ∀ c, c ∈ ((extract html).map normalizeCode).filter (fun c => !c.isEmpty) ↔
      c ∈ existingDiscounts s) :
    (applyDiscountRun extract s fresh (.settled true (.obj d))).state.errShipping = true ∧
    (applyDiscountRun extract s fresh (.settled true (.obj d))).state.errGeneric = true ∧
    (applyDiscountRun extract s fresh (.settled true (.obj d))).state.errDiscountCode = false ∧
    (applyDiscountRun extract s fresh (.settled true (.obj d))).state.inputValue = [] ∧
    (applyDiscountRun extract s fresh (.settled true (.obj d))).broadcasts = [] ∧
    (applyDiscountRun extract s fresh (.settled true (.obj d))).morphs = [] := by
  have hf := applyDiscountToFetch_fetches s fresh sid hsid hne hnm
  have hlen := length_eq_of_nodup_set_eq _ _ hnodupNext hnodupPrev hset
  have hsub : ∀ c ∈ ((extract html).map normalizeCode).filter (fun c => !c.isEmpty),
      c ∈ existingDiscounts s := fun c hc => (hset c).mp hc
  simp only [applyDiscountRun, hf]
  rw [applyDiscountSettle_shipping extract _ _ _ d _ l html hl hnf hyes hlook hlen hsub,
    lockedState_fields]
  by_cases hb : s.hasSubmitBtn <;>
    simp [applyFinally, unlockUI, showError, hb]

/-- C4 (witness): pill `OLD`, submitting `ship`, response marks `SHIP`
applicable but the returned markup still shows exactly the pill `OLD`. -/
theorem applyDiscount_shipping_heuristic_witness :
    (applyDiscountRun (fun _ => [jstr "OLD"])
      ⟨some [99], [jstr "OLD"], jstr "ship", true, false, false, none,
        false, false, false, none⟩
      1 (.settled true (.obj ⟨some [⟨jstr "SHIP", some true⟩], [([99], [60])]⟩))).state.errShipping = true ∧
    (applyDiscountRun (fun _ => [jstr "OLD"])
      ⟨some [99], [jstr "OLD"], jstr "ship", true, false, false, none,
        false, false, false, none⟩
      1 (.settled true (.obj ⟨some [⟨jstr "SHIP", some true⟩], [([99], [60])]⟩))).state.errGeneric = true ∧
    (applyDiscountRun (fun _ => [jstr "OLD"])
      ⟨some [99], [jstr "OLD"], jstr "ship", true, false, false, none,
        false, false, false, none⟩
      1 (.settled true (.obj ⟨some [⟨jstr "SHIP", some true⟩], [([99], [60])]⟩))).state.errDiscountCode = false ∧
    (applyDiscountRun (fun _ => [jstr "OLD"])
      ⟨some [99], [jstr "OLD"], jstr "ship", true, false, false, none,
        false, false, false, none⟩
      1 (.settled true (.obj ⟨some [⟨jstr "SHIP", some true⟩], [([99], [60])]⟩))).state.inputValue = [] ∧
    (applyDiscountRun (fun _ => [jstr "OLD"])
      ⟨some [99], [jstr "OLD"], jstr "ship", true, false, false, none,
        false, false, false, none⟩
      1 (.settled true (.obj ⟨some [⟨jstr "SHIP", some true⟩], [([99], [60])]⟩))).broadcasts = [] ∧
    (applyDiscountRun (fun _ => [jstr "OLD"])
      ⟨some [99], [jstr "OLD"], jstr "ship", true, false, false, none,
        false, false, false, none⟩
      1 (.settled true (.obj ⟨some [⟨jstr "SHIP", some true⟩], [([99], [60])]⟩))).morphs = [] :=
  applyDiscount_shipping_heuristic (fun _ => [jstr "OLD"])
    ⟨some [99], [jstr "OLD"], jstr "ship", true, false, false, none,
      false, false, false, none⟩
    1 [99] ⟨some [⟨jstr "SHIP", some true⟩], [([99], [60])]⟩
    [⟨jstr "SHIP", some true⟩] [60] rfl (by decide) (by decide) rfl
    (by decide) ⟨⟨jstr "SHIP", some true⟩, by decide, rfl, rfl⟩ rfl
    (by decide) (by decide) (mem_iff_of_eq (by decide))

/-- C5: for every `applyDiscount` call whose settled OK response marks the
submitted code applicable (and not non-applicable) and whose returned
section markup's pill-code set differs from the one read before the request
(sets of duplicate-free codes, per the data model's uniqueness invariant),
exactly one discount-update broadcast carrying the response payload is
dispatched, the section-replacement utility is invoked exactly once with the
returned html, the input field is cleared, and no error is shown. -/
theorem applyDiscount_broadcast_and_morph (extract : JStr → List JStr) (s : CD)
    (fresh : Nat) (sid : JStr) (d : RespData) (l : List RespEntry) (html : JStr)
    (hsid : s.sectionId = some sid)
    (hne : normalizeCode s.inputValue ≠ [])
    (hnm : normalizeCode s.inputValue ∉ existingDiscounts s)
    (hl : d.discount_codes = some l)
    (hnf : ∀ e ∈ l, normalizeCode e.code = normalizeCode s.inputValue →
      e.applicable ≠ some false)
    (_hyes : ∃ e ∈ l, normalizeCode e.code = normalizeCode s.inputValue ∧
      e.applicable = some true)
    (hlook : sectionsLookup d.sections sid = some html)
    (hnodupNext : (((extract html).map normalizeCode).filter (fun c => !c.isEmpty)).Nodup)
    (hnodupPrev : (existingDiscounts s).Nodup)
    (hset : ¬∀ c, c ∈ ((extract html).map normalizeCode).filter (fun c => !c.isEmpty) ↔
      c ∈ existingDiscounts s) :
    (applyDiscountRun extract s fresh (.settled true (.obj d))).broadcasts = [d] ∧
    (applyDiscountRun extract s fresh (.settled true (.obj d))).morphs = [(sid, html)] ∧
    (applyDiscountRun extract s fresh (.settled true (.obj d))).state.inputValue = [] ∧
    (applyDiscountRun extract s fresh (.settled true (.obj d))).state.errGeneric = false ∧
    (applyDiscountRun extract s fresh (.settled true (.obj d))).state.errDiscountCode = false ∧
    (applyDiscountRun extract s fresh (.settled true (.obj d))).state.errShipping = false := by
  have hf := applyDiscountToFetch_fetches s fresh sid hsid hne hnm
  have hnn := set_ne_of_nodup_not_iff _ _ hnodupNext hnodupPrev hset
  have hnf' : ∀ l', d.discount_codes = some l' →
      ∀ e ∈ l', normalizeCode e.code = normalizeCode s.inputValue →
        e.applicable ≠ some false := by
    intro l' hl'
    rw [hl] at hl'
    cases hl'
    exact hnf
  simp only [applyDiscountRun, hf]
  rw [applyDiscountSettle_broadcast extract _ _ _ d _ html hnf' hlook hnn,
    lockedState_fields]
  by_cases hb : s.hasSubmitBtn <;>
    simp [applyFinally, unlockUI, hb]

/-- C5 (witness): pill `OLD`, submitting `save10`, response marks `SAVE10`
applicable and the returned markup shows pills `OLD` and `SAVE10`. -/
theorem applyDiscount_broadcast_and_morph_witness :
    (applyDiscountRun (fun _ => [jstr "OLD", jstr "SAVE10"])
      ⟨some [99], [jstr "OLD"], jstr "save10", true, false, false, none,
        false, false, false, none⟩
      1 (.settled true (.obj ⟨some [⟨jstr "SAVE10", some true⟩], [([99], [60])]⟩))).broadcasts =
      [⟨some [⟨jstr "SAVE10", some true⟩], [([99], [60])]⟩] ∧
    (applyDiscountRun (fun _ => [jstr "OLD", jstr "SAVE10"])
      ⟨some [99], [jstr "OLD"], jstr "save10", true, false, false, none,
        false, false, false, none⟩
      1 (.settled true (.obj ⟨some [⟨jstr "SAVE10", some true⟩], [([99], [60])]⟩))).morphs =
      [([99], [60])] ∧
    (applyDiscountRun (fun _ => [jstr "OLD", jstr "SAVE10"])
      ⟨some [99], [jstr "OLD"], jstr "save10", true, false, false, none,
        false, false, false, none⟩
      1 (.settled true (.obj ⟨some [⟨jstr "SAVE10", some true⟩], [([99], [60])]⟩))).state.inputValue = [] ∧
    (applyDiscountRun (fun _ => [jstr "OLD", jstr "SAVE10"])
      ⟨some [99], [jstr "OLD"], jstr "save10", true, false, false, none,
        false, false, false, none⟩
      1 (.settled true (.obj ⟨some [⟨jstr "SAVE10", some true⟩], [([99], [60])]⟩))).state.errGeneric = false ∧
    (applyDiscountRun (fun _ => [jstr "OLD", jstr "SAVE10"])
      ⟨some [99], [jstr "OLD"], jstr "save10", true, false, false, none,
        false, false, false, none⟩
      1 (.settled true (.obj ⟨some [⟨jstr "SAVE10", some true⟩], [([99], [60])]⟩))).state.errDiscountCode = false ∧
    (applyDiscountRun (fun _ => [jstr "OLD", jstr "SAVE10"])
      ⟨some [99], [jstr "OLD"], jstr "save10", true, false, false, none,
        false, false, false, none⟩
      1 (.settled true (.obj ⟨some [⟨jstr "SAVE10", some true⟩], [([99], [60])]⟩))).state.errShipping = false :=
  applyDiscount_broadcast_and_morph (fun _ => [jstr "OLD", jstr "SAVE10"])
    ⟨some [99], [jstr "OLD"], jstr "save10", true, false, false, none,
      false, false, false, none⟩
    1 [99] ⟨some [⟨jstr "SAVE10", some true⟩], [([99], [60])]⟩
    [⟨jstr "SAVE10", some true⟩] [60] rfl (by decide) (by decide) rfl
    (by decide) ⟨⟨jstr "SAVE10", some true⟩, by decide, rfl, rfl⟩ rfl
    (by decide) (by decide)
    (not_mem_iff_of_elt (jstr "SAVE10") (Or.inl ⟨by decide, by decide⟩))

/-- C8: for every `removeDiscount` activation whose normalized pill code is
not among the normalized codes of the rendered pills, the operation is a
no-op: the state is returned unchanged and no fetch, broadcast, morph or
abort happens.  (This holds for every fetch outcome since no fetch is
issued, and also covers the empty-code early return only when the code is
genuinely absent from the pill set.) -/
theorem removeDiscount_absent_noop (s : CD) (pillRaw : JStr) (fresh : Nat)
    (outcome : FetchOutcome)
    (habs : normalizeCode pillRaw ∉ existingDiscounts s) :
    removeDiscountRun s pillRaw fresh outcome = ⟨s, [], [], [], []⟩ := by
  unfold removeDiscountRun
  cases hsid : s.sectionId with
  | none => rfl
  | some sid =>
    by_cases hc : normalizeCode pillRaw = []
    · simp [hc]
    · simp only [if_neg hc, if_neg habs]

/-- C8 (witness): removing `GONE` while only `OLD` is rendered. -/
theorem removeDiscount_absent_noop_witness :
    removeDiscountRun
      ⟨some [99], [jstr "OLD"], jstr "x", true, false, false, none,
        false, false, false, some 4⟩ (jstr "GONE") 9 .netError =
      ⟨⟨some [99], [jstr "OLD"], jstr "x", true, false, false, none,
        false, false, false, some 4⟩, [], [], [], []⟩ :=
  removeDiscount_absent_noop
    ⟨some [99], [jstr "OLD"], jstr "x", true, false, false, none,
      false, false, false, some 4⟩ (jstr "GONE") 9 .netError (by decide)

/-- C1 (code evaluation at the failing input): a first `applyDiscount`
(input `"A"`, fresh controller 1) reaches its fetch; a second
`applyDiscount` (input `"B"`, fresh controller 2) then aborts controller 1
and locks the UI again; when the first operation's fetch settles with
`AbortError`, its `catch` is silent but its unconditional `finally` still
nulls `#activeFetch` (which now holds the second operation's controller 2),
re-enables the submit button and blanks the status text — mutating UI state
owned by the superseding operation, which the claim forbids. -/
theorem abortedApply_settlement_mutates_ui :
    applyDiscountToFetch
        ⟨some [99], [], [65], true, false, false, none, false, false, false, none⟩ 1 =
      .inr ⟨⟨some [99], [], [65], true, true, true, some applyingLabel,
              false, false, false, some 1⟩,
            [65], [], [99], ⟨[65], [[99]]⟩, []⟩ ∧
    applyDiscountToFetch
        ⟨some [99], [], [66], true, true, true, some applyingLabel,
          false, false, false, some 1⟩ 2 =
      .inr ⟨⟨some [99], [], [66], true, true, true, some applyingLabel,
              false, false, false, some 2⟩,
            [66], [], [99], ⟨[66], [[99]]⟩, [1]⟩ ∧
    applyDiscountSettle (fun _ => []) [65] [] [99] .abortError
        ⟨some [99], [], [66], true, true, true, some applyingLabel,
          false, false, false, some 2⟩ =
      (⟨some [99], [], [66], true, true, false, some [], false, false, false, none⟩,
       [], []) := by
  refine ⟨by decide, by decide, by decide⟩

/-!
The `BlogPostsList` component (`<blog-posts-list>`): the state read or
written by `loadNext`.
-/

/-- State of one `<blog-posts-list>` instance. -/
structure BPL where
  /-- `data-endpoint` (`''` = absent, the getter's default). -/
  endpoint : JStr
  /-- the `pageSize` getter's parsed value; `0` models `undefined`
  (`parseInt(...) || undefined`). -/
  pageSizeAttr : Nat
  /-- `#page`. -/
  page : Nat
  /-- `#loading`. -/
  loading : Bool
  /-- `#done`. -/
  done : Bool
  /-- the element's `aria-busy` attribute is present. -/
  ariaBusy : Bool
  /-- text of the `.bpl__status` live region. -/
  statusText : JStr
  /-- number of children of `.bpl__list`. -/
  children : Nat
  /-- a `.bpl__error` div is present in the list. -/
  errorShown : Bool
  /-- `.bpl__more` has the `hidden` attribute. -/
  btnMoreHidden : Bool
  /-- `.bpl__sentinel` has the `hidden` attribute. -/
  sentinelHidden : Bool
  /-- the `errorText` getter's value (default applied). -/
  errorText : JStr
  /-- the `emptyText` getter's value (default applied). -/
  emptyText : JStr
  deriving DecidableEq

/-- How `loadNext`'s `fetch` + `res.json()` settled.  `netError` covers a
rejected fetch, the `!res.ok` throw and a rejected `res.json()`; `ok` gives
the body's fields: `items` = length of `data.items` when it is an array
(else `0`), `total` = `data.total` when `Number.isFinite` (else `none`),
`pageSize` = `data.pageSize` with `0` for a falsy or absent value. -/
inductive LoadOutcome
  | netError
  | ok (items : Nat) (total : Option Nat) (pageSize : Nat)
  deriving DecidableEq

/-- Query parameters of the issued request (`pageSize = 0` = omitted). -/
structure LoadReq where
  page : Nat
  pageSize : Nat
  deriving DecidableEq

/-- Result of one `loadNext` call: `guarded` = returned at the
`#loading || #done` reentrancy guard (no fetch, state untouched);
`missingEndpoint` = delegated to the inherited `#emitError` (no fetch; that
method lives in `@theme/paginated-list`, outside this repository);
`ran req s` = a fetch with parameters `req` settled, leaving state `s`. -/
inductive LoadResult
  | guarded (s : BPL)
  | missingEndpoint (s : BPL)
  | ran (req : LoadReq) (s : BPL)
  deriving DecidableEq

/-- The literal `'Loading…'`. -/
def loadingLabel : JStr := jstr "Loading…"

/-- The literal `'All posts loaded.'`. -/
def allLoadedLabel : JStr := jstr "All posts loaded."

/-- The literal `'No posts to display.'`. -/
def noPostsLabel : JStr := jstr "No posts to display."

/-- `BlogPostsList.#renderError`: status shows the error text, an error div
is appended if absent, the Load-more button is revealed (`console.error`
has no component state). -/
def renderErrorB (s : BPL) : BPL :=
  let s1 := { s with statusText := s.errorText }
  let s2 := if s1.errorShown then s1
            else { s1 with children := s1.children + 1, errorShown := true }
  { s2 with btnMoreHidden := false }

/-- `BlogPostsList.#renderEmpty`: list content replaced by the empty note,
button and sentinel hidden, status set. -/
def renderEmptyB (s : BPL) : BPL :=
  { s with children := 1, errorShown := false, btnMoreHidden := true,
           sentinelHidden := true, statusText := noPostsLabel }

/-- `BlogPostsList.loadNext`, with the fetch outcome as a parameter. -/
def loadNext (s : BPL) (outcome : LoadOutcome) : LoadResult :=
  if s.loading || s.done then .guarded s
  else if s.endpoint = [] then .missingEndpoint s
  else
    let req : LoadReq := ⟨s.page, s.pageSizeAttr⟩
    let s1 := { s with loading := true, statusText := loadingLabel, ariaBusy := true }
    match outcome with
    | .netError =>
      let s2 := renderErrorB s1
      .ran req { s2 with loading := false, ariaBusy := false }
    | .ok items total ps =>
      if s1.page = 1 ∧ items = 0 then
        let s2 := { renderEmptyB s1 with done := true }
        .ran req { s2 with loading := false, ariaBusy := false }
      else
        let s2 := { s1 with children := s1.children + items }
        let pageSize := if ps ≠ 0 then ps
                        else if s.pageSizeAttr ≠ 0 then s.pageSizeAttr else items
        let stop := (match total with
          | some t => decide (t ≠ 0 ∧ s2.children ≥ t)
          | none => false) || decide (items < pageSize)
        if stop then
          .ran req { s2 with
                       done := true, btnMoreHidden := true, sentinelHidden := true,
                       statusText := allLoadedLabel, page := s2.page + 1,
                       loading := false, ariaBusy := false }
        else
          .ran req { s2 with
                       btnMoreHidden := false, sentinelHidden := false,
                       statusText := [], page := s2.page + 1,
                       loading := false, ariaBusy := false }

/-- C10 (implicit): `BlogPostsList.loadNext` is reentrancy-guarded — called
while a previous load is in flight (`#loading` set) or after the list is
done (`#done` set), it returns at the guard: no fetch is issued and the
state is unchanged; hence at most one load request is in flight per
component instance. -/
theorem loadNext_reentrancy_guard (s : BPL) (outcome : LoadOutcome)
    (h : s.loading = true ∨ s.done = true) :
    loadNext s outcome = .guarded s := by
  unfold loadNext
  rcases h with h | h <;> simp [h]

/-- C10 (witness): a call during an in-flight load returns at the guard with
the state untouched. -/
theorem loadNext_reentrancy_guard_witness :
    loadNext ⟨jstr "/blog.json", 12, 3, true, false, true, loadingLabel, 5,
      false, false, true, jstr "err", jstr "empty"⟩ .netError =
      .guarded ⟨jstr "/blog.json", 12, 3, true, false, true, loadingLabel, 5,
        false, false, true, jstr "err", jstr "empty"⟩ :=
  loadNext_reentrancy_guard _ .netError (Or.inl rfl)
